import Mathlib

/-!
Shallow embedding of the `ida-pro-mcp` routing gateway (`src/ida_pro_mcp/server.py`).

The gateway multiplexes JSON-RPC calls across registered IDA worker
instances.  We model JSON values, the instance registry and its operations
(`register_instance`, `unregister_instance`, `find_instance`), the schema
augmenter (`add_binary_param_to_schema`), the discovery scanner
(`discover_ida_instances`) and the routing state machine (`dispatch_proxy`).
Network I/O (HTTP forwards, discovery probes) and the wrapped local dispatch
mechanism are passed in as explicit oracles; in-place mutation of Python
dicts is modelled by returning the final value of the inbound request.
-/

mutual
/-- JSON values (the subset the gateway manipulates: no floats).  An object
carries an insertion-ordered entry list with unique keys, mirroring a Python
dict. -/
inductive Json where
  | null : Json
  | bool : Bool → Json
  | num : Int → Json
  | str : String → Json
  | arr : JsonList → Json
  | obj : JsonObj → Json
deriving DecidableEq, Repr

/-- A JSON array's elements. -/
inductive JsonList where
  | nil : JsonList
  | cons : Json → JsonList → JsonList
deriving DecidableEq, Repr

/-- A JSON object's entries, in insertion order. -/
inductive JsonObj where
  | nil : JsonObj
  | cons : String → Json → JsonObj → JsonObj
deriving DecidableEq, Repr
end

namespace JsonObj

/-- Build an object entry list from a Lean list (literal notation helper). -/
def ofList : List (String × Json) → JsonObj
  | [] => .nil
  | (k, v) :: t => .cons k v (ofList t)

/-- Python `k in d` / `d.get(k)`: lookup by key. -/
def get? (d : JsonObj) (k : String) : Option Json :=
  match d with
  | .nil => none
  | .cons k' v t => if k' = k then some v else get? t k

/-- Python dict assignment `d[k] = v`: overwrite in place keeping the key's
position, else append (insertion-ordered dict semantics). -/
def set (d : JsonObj) (k : String) (v : Json) : JsonObj :=
  match d with
  | .nil => .cons k v .nil
  | .cons k' v' t => if k' = k then .cons k v t else .cons k' v' (set t k v)

/-- Python `d.pop(k, None)`: the removed value (if any) and the remaining
dict. -/
def pop (d : JsonObj) (k : String) : Option Json × JsonObj :=
  match d with
  | .nil => (none, .nil)
  | .cons k' v t =>
    if k' = k then (some v, t)
    else
      let (r, t') := pop t k
      (r, .cons k' v t')

end JsonObj

namespace JsonList

/-- List append (Python `list.append`, modelled immutably). -/
def append (l : JsonList) (x : Json) : JsonList :=
  match l with
  | .nil => .cons x .nil
  | .cons h t => .cons h (append t x)

/-- Map over a JSON array. -/
def map (f : Json → Json) : JsonList → JsonList
  | .nil => .nil
  | .cons h t => .cons (f h) (map f t)

/-- Does any element satisfy the predicate? -/
def any (p : Json → Bool) : JsonList → Bool
  | .nil => false
  | .cons h t => p h || any p t

/-- How many elements satisfy the predicate? -/
def countP (p : Json → Bool) : JsonList → Nat
  | .nil => 0
  | .cons h t => (if p h then 1 else 0) + countP p t

end JsonList

namespace Json

/-- `j.get? k` when `j` is an object, else `none` (the gateway only
subscripts values it has checked with `in`; `in` on a non-dict either fails
or is element membership, neither of which the routed shapes exercise). -/
def get? (j : Json) (k : String) : Option Json :=
  match j with
  | obj d => d.get? k
  | _ => none

/-- Key update when `j` is an object, else `j` unchanged. -/
def set (j : Json) (k : String) (v : Json) : Json :=
  match j with
  | obj d => obj (d.set k v)
  | _ => j

end Json

/-! ## Instance registry (`IDA_INSTANCES` and its operations) -/

/-- Metadata stored for one registered IDA instance (the dict value built by
`register_instance`). -/
structure Instance where
  host : String
  port : Int
  path : String
  module : String
  md5 : String
  sha256 : String
  registered_at : Int
deriving DecidableEq, Repr

/-- `IDA_INSTANCES`: an insertion-ordered dict from binary identity (sha256,
or md5 when no sha256 was supplied) to instance metadata. -/
def Registry := List (String × Instance)
deriving DecidableEq, Repr

/-- Dict lookup `k in reg` / `reg[k]`. -/
def regGet? (reg : Registry) (k : String) : Option Instance :=
  match reg with
  | [] => none
  | (k', v) :: t => if k' = k then some v else regGet? t k

/-- Dict assignment `reg[k] = v` (overwrite in place, else append). -/
def regSet (reg : Registry) (k : String) (v : Instance) : Registry :=
  match reg with
  | [] => [(k, v)]
  | (k', v') :: t => if k' = k then (k, v) :: t else (k', v') :: regSet t k v

/-- Dict deletion `del reg[k]` (keys are unique). -/
def regRemove (reg : Registry) (k : String) : Registry :=
  match reg with
  | [] => []
  | (k', v) :: t => if k' = k then t else (k', v) :: regRemove t k

/-- Python substring test `needle in hay` on character lists. -/
def listInfix (needle : List Char) (hay : List Char) : Bool :=
  needle.isPrefixOf hay ||
    match hay with
    | [] => false
    | _ :: t => listInfix needle t

/-- Python `needle in hay` for strings. -/
def str_contains (hay needle : String) : Bool :=
  listInfix needle.data hay.data

/-- `find_instance(binary)`: three-tier resolution — exact identity key,
then first instance (in insertion order) whose module equals the selector,
then first instance whose path contains it as a substring. -/
def find_instance (reg : Registry) (binary : String) : Option Instance :=
  match regGet? reg binary with
  | some inst => some inst
  | none =>
    match reg.find? (fun p => p.2.module == binary) with
    | some p => some p.2
    | none =>
      match reg.find? (fun p => str_contains p.2.path binary) with
      | some p => some p.2
      | none => none

/-- `get_instance_count()`. -/
def get_instance_count (reg : Registry) : Nat := reg.length

/-- `get_single_instance()`: the one instance when exactly one is
registered. -/
def get_single_instance (reg : Registry) : Option Instance :=
  if reg.length = 1 then (reg.map Prod.snd).head? else none

/-- A registration payload (the JSON body's fields; `none` models an absent
key, so `data.get(k, default)` becomes `getD`). -/
structure RegPayload where
  host : Option String := none
  port : Option Int := none
  path : Option String := none
  module : Option String := none
  md5 : Option String := none
  sha256 : Option String := none
deriving DecidableEq, Repr

/-- Reply shape of `register_instance` / `unregister_instance`:
`{"success": true, "binary_id": k}` or `{"success": false, "error": msg}`. -/
inductive RegReply where
  | success (binary_id : String)
  | failure (error : String)
deriving DecidableEq, Repr

/-- `register_instance(data)`: pick sha256 as identity when non-empty, else
md5; reject when both are empty, else store/overwrite the record. -/
def register_instance (data : RegPayload) (now : Int) (reg : Registry) :
    RegReply × Registry :=
  let sha256 := data.sha256.getD ""
  let md5 := data.md5.getD ""
  let binary_id := if sha256 ≠ "" then sha256 else md5
  if binary_id = "" then
    (.failure "No sha256 or md5 provided", reg)
  else
    (.success binary_id,
     regSet reg binary_id
       { host := data.host.getD "127.0.0.1"
         port := data.port.getD 13337
         path := data.path.getD ""
         module := data.module.getD ""
         md5 := md5
         sha256 := sha256
         registered_at := now })

/-- An unregistration payload. -/
structure UnregPayload where
  binary_id : Option String := none
  sha256 : Option String := none
  md5 : Option String := none
deriving DecidableEq, Repr

/-- `unregister_instance(data)`: try the payload's `binary_id`, then its
`sha256`, then its `md5`, each as a key of the registry dict (a field is
skipped when empty); delete the first key found, else fail. -/
def unregister_instance (data : UnregPayload) (reg : Registry) :
    RegReply × Registry :=
  let binary_id := data.binary_id.getD ""
  let sha256 := data.sha256.getD ""
  let md5 := data.md5.getD ""
  let key_to_remove : Option String :=
    if binary_id ≠ "" ∧ (regGet? reg binary_id).isSome then some binary_id
    else if sha256 ≠ "" ∧ (regGet? reg sha256).isSome then some sha256
    else if md5 ≠ "" ∧ (regGet? reg md5).isSome then some md5
    else none
  match key_to_remove with
  | some k => (.success k, regRemove reg k)
  | none => (.failure "Instance not found", reg)

/-! ## Schema augmenter (`add_binary_param_to_schema`) -/

/-- The `binary` property descriptor inserted into every tool schema. -/
def binary_param : Json :=
  .obj (.ofList
    [("type", .str "string"),
     ("description", .str "Target binary (name like 'binary.exe', sha256 hash, or path). Use list_instances to see available binaries.")])

/-- The synthetic `list_instances` tool descriptor appended by the
augmenter. -/
def list_instances_tool : Json :=
  .obj (.ofList
    [("name", .str "list_instances"),
     ("description", .str "List all connected IDA Pro instances with their binary information"),
     ("inputSchema", .obj (.ofList
       [("type", .str "object"),
        ("properties", .obj .nil),
        ("required", .arr .nil)]))])

/-- One loop iteration of the augmenter: when the tool declares
`inputSchema` with a `properties` member, assign
`tool["inputSchema"]["properties"]["binary"]` (a non-dict `properties`
value would raise in Python, caught only by the caller's `try`; the routed
shapes never carry one and we leave the tool unchanged there). -/
def add_binary_to_tool (tool : Json) : Json :=
  match tool.get? "inputSchema" with
  | some schema =>
    match schema.get? "properties" with
    | some props =>
      tool.set "inputSchema" (schema.set "properties" (props.set "binary" binary_param))
    | none => tool
  | none => tool

/-- Is this tool's `name` the string `list_instances`?  (`existing_names`
membership; a tool without a `name` raises `KeyError` in Python, caught by
the caller's `try` — modelled as not matching.) -/
def tool_named_list_instances (tool : Json) : Bool :=
  match tool.get? "name" with
  | some (.str s) => s == "list_instances"
  | _ => false

/-- `add_binary_param_to_schema(response)`: untouched unless
`response["result"]["tools"]` exists (and is an array); otherwise add the
`binary` parameter to every tool schema declaring properties, then append
the `list_instances` descriptor unless a tool of that name is present. -/
def add_binary_param_to_schema (response : Json) : Json :=
  match response.get? "result" with
  | none => response
  | some result =>
    match result.get? "tools" with
    | some (.arr tools) =>
      let tools' := tools.map add_binary_to_tool
      let tools'' :=
        if tools'.any tool_named_list_instances then tools'
        else tools'.append list_instances_tool
      response.set "result" (result.set "tools" (.arr tools''))
    | _ => response

/-! ## Discovery scanner (`discover_ida_instances`) -/

/-- `metadata.get(k, "")` restricted to string values (the worker's
`idb_meta` reply carries strings). -/
def meta_get_str (meta : Json) (k : String) : String :=
  match meta.get? k with
  | some (.str s) => s
  | _ => ""

/-- One port probe of the scanner.  The probe outcome is an oracle:
`.error` is any exception inside the per-port `try` (connection refused,
timeout, malformed outer or inner JSON — the nested `json.loads` of the
`text` field is modelled by embedding the parsed metadata object directly);
`.ok data` is the parsed `/mcp` reply.  A well-formed reply registers the
instance and counts it when registration succeeds. -/
def discover_step (host : String) (port : Int) (now : Int)
    (probe : Except String Json) (reg : Registry) : Nat × Registry :=
  match probe with
  | .error _ => (0, reg)
  | .ok data =>
    match data.get? "result" with
    | some result =>
      match result.get? "content" with
      | some (.arr (.cons c0 _)) =>
        match c0.get? "text" with
        | some meta =>
          let register_data : RegPayload :=
            { host := some host
              port := some port
              path := some (meta_get_str meta "path")
              module := some (meta_get_str meta "module")
              md5 := some (meta_get_str meta "md5")
              sha256 := some (meta_get_str meta "sha256") }
          match register_instance register_data now reg with
          | (.success _, reg') => (1, reg')
          | (.failure _, reg') => (0, reg')
        | none => (0, reg)
      | _ => (0, reg)
    | none => (0, reg)

/-- The scanner's port loop: one probe outcome per consecutive port. -/
def discover_loop (host : String) (now : Int)
    (probes : List (Except String Json)) (port : Int) (reg : Registry) :
    Nat × Registry :=
  match probes with
  | [] => (0, reg)
  | p :: ps =>
    let step := discover_step host port now p reg
    let rest := discover_loop host now ps (port + 1) step.2
    (step.1 + rest.1, rest.2)

/-- `discover_ida_instances(host, start_port, max_tries)`: scan
`max_tries = probes.length` consecutive ports starting at `start_port`,
returning the accumulated `discovered` counter and the updated registry. -/
def discover_ida_instances (host : String) (start_port : Int) (now : Int)
    (probes : List (Except String Json)) (reg : Registry) : Nat × Registry :=
  discover_loop host now probes start_port reg

/-! ## Routing gateway (`dispatch_proxy`) -/

/-- Python truthiness of a JSON value (`if binary:`). -/
def Json.truthy : Json → Bool
  | .null => false
  | .bool b => b
  | .num n => n != 0
  | .str s => s != ""
  | .arr l => l != .nil
  | .obj d => d != .nil

/-- `request_obj.get("id")`: `None` both when the key is absent and when
its value is JSON `null`. -/
def reqId? (request : Json) : Option Json :=
  match request.get? "id" with
  | some .null => none
  | some v => some v
  | none => none

/-- Is this a `tools/call` of the main-server tool `list_instances`
(`params.get("name") == "list_instances"`)? -/
def is_list_instances_call (request : Json) : Bool :=
  match request.get? "params" with
  | some (.obj p) =>
    match p.get? "name" with
    | some (.str s) => s == "list_instances"
    | _ => false
  | _ => false

/-- Selector extraction with its in-place mutation: for `tools/call` with a
dict `arguments`, `binary = arguments.pop("binary", None)`; otherwise
`binary = params.pop("binary", None)` on a dict `params`.  Returns the
popped value and the request's final value (Python mutates `request_obj`
through the aliased `params`/`arguments` dicts; a missing `params` key
means the pop acts on a fresh `{}` and the request is untouched). -/
def extract_binary (method : String) (request : Json) : Option Json × Json :=
  match request.get? "params" with
  | some (.obj p) =>
    if method = "tools/call" ∧ (p.get? "arguments").isSome then
      match p.get? "arguments" with
      | some (.obj a) =>
        let r := a.pop "binary"
        (r.1, request.set "params" (.obj (p.set "arguments" (.obj r.2))))
      | _ => (none, request)
    else
      let r := p.pop "binary"
      (r.1, request.set "params" (.obj r.2))
  | some _ => (none, request)
  | none => (none, request)

/-- `{"jsonrpc": "2.0", "error": {"code": -32000, "message": msg}, "id": i}`. -/
def error_response (i : Json) (msg : String) : Json :=
  .obj (.ofList
    [("jsonrpc", .str "2.0"),
     ("error", .obj (.ofList [("code", .num (-32000)), ("message", .str msg)])),
     ("id", i)])

/-- The transport-failure reply: the message names the platform-specific
shortcut and carries the failure text (`traceback.format_exc()` and
`str(e)` are both modelled by the oracle's exception text). -/
def transport_error_response (i : Json) (darwin : Bool) (e : String) : Json :=
  let shortcut := if darwin then "Ctrl+Option+M" else "Ctrl+Alt+M"
  .obj (.ofList
    [("jsonrpc", .str "2.0"),
     ("error", .obj (.ofList
       [("code", .num (-32000)),
        ("message", .str ("Failed to connect to IDA Pro! Did you run Edit -> Plugins -> MCP (" ++ shortcut ++ ") to start the server?\n" ++ e)),
        ("data", .str e)])),
     ("id", i)])

/-- The capability list synthesized when no instance is registered even
after discovery. -/
def tools_list_empty_response (i : Json) : Json :=
  .obj (.ofList
    [("jsonrpc", .str "2.0"),
     ("result", .obj (.ofList
       [("tools", .arr (.cons (.obj (.ofList
         [("name", .str "list_instances"),
          ("description", .str "List all connected IDA Pro instances with their binary information. No IDA instances are currently connected."),
          ("inputSchema", .obj (.ofList
            [("type", .str "object"),
             ("properties", .obj .nil),
             ("required", .arr .nil)]))])) .nil))])),
     ("id", i)])

/-- The final `try` block of `dispatch_proxy`: forward the (selector-
stripped) request to the resolved address; on success re-run the augmenter
when the method was `tools/list` (unreachable there, kept from the source);
on failure reply with the transport error, or with nothing for a
notification. -/
def forward_leg (fwd : Json → String → Int → Except String Json)
    (method : String) (darwin : Bool) (idOpt : Option Json)
    (request' : Json) (host : String) (port : Int) : Option Json :=
  match fwd request' host port with
  | .ok response =>
    some (if method = "tools/list" then add_binary_param_to_schema response
          else response)
  | .error e =>
    match idOpt with
    | none => none
    | some i => some (transport_error_response i darwin e)

/-- The selector-absent arm of the target resolution (`binary` was `None`
or falsy): auto-route when exactly one instance is registered, reject as
ambiguous when more than one (no reply for a notification), else fall back
to the default address, then run the forward leg. -/
def route_without_binary (fwd : Json → String → Int → Except String Json)
    (method : String) (darwin : Bool) (idOpt : Option Json)
    (request' : Json) (idaHost : String) (idaPort : Int) (reg : Registry) :
    Option Json :=
  if get_instance_count reg = 1 then
    match get_single_instance reg with
    | some inst => forward_leg fwd method darwin idOpt request' inst.host inst.port
    | none => forward_leg fwd method darwin idOpt request' idaHost idaPort
  else if get_instance_count reg > 1 then
    match idOpt with
    | none => none
    | some i =>
      some (error_response i
        "Multiple IDA instances are connected. Please specify the 'binary' parameter to select which one to use. Use list_instances to see available binaries.")
  else
    forward_leg fwd method darwin idOpt request' idaHost idaPort

/-- Steps 5–9 of the routing state machine (everything after the local and
capability-listing branches): extract and strip the selector, resolve a
target, forward, translate failures.  A truthy non-string selector raises
inside `find_instance` in Python (unhashable membership or a substring test
against a non-string); that uncaught exception is the `.error` case. -/
def dispatch_route (fwd : Json → String → Int → Except String Json)
    (method : String) (darwin : Bool) (request : Json)
    (idaHost : String) (idaPort : Int) (reg : Registry) :
    Except String (Option Json × Registry × Json) :=
  -- Extract binary parameter for routing
  let eb := extract_binary method request
  let request' := eb.2
  match eb.1 with
  | some v =>
    if v.truthy then
      match v with
      | .str s =>
        match find_instance reg s with
        | none =>
          match reqId? request with
          | none => .ok (none, reg, request')
          | some i =>
            .ok (some (error_response i
                   ("No IDA instance found for binary: " ++ s ++
                    ". Use list_instances to see available binaries.")),
                 reg, request')
        | some inst =>
          .ok (forward_leg fwd method darwin (reqId? request) request'
                 inst.host inst.port, reg, request')
      | _ => .error "TypeError: non-string binary selector"
    else
      .ok (route_without_binary fwd method darwin (reqId? request)
             request' idaHost idaPort reg, reg, request')
  | none =>
    .ok (route_without_binary fwd method darwin (reqId? request)
           request' idaHost idaPort reg, reg, request')

/-- `dispatch_proxy(request)` on a parsed request dict.

Oracles: `ld` is the wrapped `dispatch_original`; `fwd` is
`forward_to_instance` (`.error` = any exception raised while forwarding,
including a malformed reply); `probes` are this pass's discovery outcomes;
`idaHost`/`idaPort` are the module globals; `darwin` is
`sys.platform == "darwin"`.

Returns `.ok (reply?, final registry, final request value)` — the third
component is `request_obj` after the in-place selector pop — or `.error`
for an exception the function does not catch (no string `method` member:
`KeyError`/`AttributeError`; a truthy non-string selector, which raises
inside `find_instance` on membership or substring tests). -/
def dispatch_proxy (ld : Json → Option Json)
    (fwd : Json → String → Int → Except String Json)
    (probes : List (Except String Json))
    (idaHost : String) (idaPort : Int) (now : Int) (darwin : Bool)
    (reg : Registry) (request : Json) :
    Except String (Option Json × Registry × Json) :=
  match request.get? "method" with
  | some (.str method) =>
    -- Handle locally: initialize, notifications
    if method = "initialize" then .ok (ld request, reg, request)
    else if method.startsWith "notifications/" then .ok (ld request, reg, request)
    -- Handle list_instances locally (it's a main server tool)
    else if method = "tools/call" ∧ is_list_instances_call request then
      .ok (ld request, reg, request)
    -- Handle tools/list - try to discover instances if none registered
    else if method = "tools/list" then
      let reg1 :=
        if get_instance_count reg = 0 then
          (discover_ida_instances idaHost 13338 now probes reg).2
        else reg
      match reg1 with
      | [] =>
        .ok (some (tools_list_empty_response ((reqId? request).getD .null)),
             reg1, request)
      | (k₀, first) :: rest =>
        match fwd request first.host first.port with
        | .ok response =>
          .ok (some (add_binary_param_to_schema response),
               (k₀, first) :: rest, request)
        | .error e =>
          .ok (some (error_response ((reqId? request).getD .null)
                 ("Failed to get tools: " ++ e)),
               (k₀, first) :: rest, request)
    else
      dispatch_route fwd method darwin request idaHost idaPort reg
  | _ => .error "KeyError: method"

/-! ## Derived observations -/

/-- Array length. -/
def JsonList.length : JsonList → Nat
  | .nil => 0
  | .cons _ t => t.length + 1

/-- Number of operation descriptors in a capability-listing reply. -/
def tools_count (response : Json) : Nat :=
  match (response.get? "result").bind (fun r => r.get? "tools") with
  | some (.arr tools) => tools.length
  | _ => 0

/-- Number of operation descriptors named `list_instances` in a
capability-listing reply. -/
def count_list_instances (response : Json) : Nat :=
  match (response.get? "result").bind (fun r => r.get? "tools") with
  | some (.arr tools) => tools.countP tool_named_list_instances
  | _ => 0

/-- The keys of an object, in order. -/
def JsonObj.keys : JsonObj → List String
  | .nil => []
  | .cons k _ t => k :: keys t

/-- A Python dict never holds a key twice; an entry list modelling one is
duplicate-free. -/
def JsonObj.NodupKeys (d : JsonObj) : Prop := d.keys.Nodup

/-- Does a probe outcome lead `discover_step` to a successful registration?
(A well-formed reply whose metadata carries a non-empty sha256 or md5.) -/
def probe_registers : Except String Json → Bool
  | .error _ => false
  | .ok data =>
    match data.get? "result" with
    | some result =>
      match result.get? "content" with
      | some (.arr (.cons c0 _)) =>
        match c0.get? "text" with
        | some meta =>
          !(meta_get_str meta "sha256" == "" && meta_get_str meta "md5" == "")
        | none => false
      | _ => false
    | none => false

/-- The unregister resolution rule as the claim words it: the key is tried
first as the identity, then against each registered record's individual
hash values (sha256, md5), removing and returning the matched identity.
Stated only for comparison with the source's `unregister_instance`. -/
def unregister_spec_tiers (key : String) (reg : Registry) :
    Option String × Registry :=
  match regGet? reg key with
  | some _ => (some key, regRemove reg key)
  | none =>
    match reg.find? (fun p => p.2.sha256 == key || p.2.md5 == key) with
    | some p => (some p.1, regRemove reg p.1)
    | none => (none, reg)

/-! ## Sample data for witnesses and counterexamples -/

/-- A registered worker analysing `/bin/alpha.exe`. -/
def sampleInstanceA : Instance :=
  { host := "127.0.0.1", port := 13338, path := "/bin/alpha.exe",
    module := "alpha.exe", md5 := "m1", sha256 := "s1", registered_at := 0 }

/-- A registered worker analysing `/bin/beta.exe`. -/
def sampleInstanceB : Instance :=
  { host := "127.0.0.1", port := 13339, path := "/bin/beta.exe",
    module := "beta.exe", md5 := "m2", sha256 := "s2", registered_at := 0 }

/-- A worker whose module is the string `s1` and whose path contains `s1` —
it collides with `sampleInstanceA`'s identity on the later resolution
tiers. -/
def sampleInstanceC : Instance :=
  { host := "127.0.0.1", port := 13340, path := "/bin/s1/copy.exe",
    module := "s1", md5 := "m3", sha256 := "s3", registered_at := 0 }

/-- One registered worker. -/
def sampleReg1 : Registry := [("s1", sampleInstanceA)]

/-- Two registered workers. -/
def sampleReg2 : Registry := [("s1", sampleInstanceA), ("s2", sampleInstanceB)]

/-- The tier-collision registry: `sampleInstanceC` precedes the record whose
identity key is `s1`. -/
def sampleFindReg : Registry := [("s3", sampleInstanceC), ("s1", sampleInstanceA)]

/-- A `tools/call` notification (no id) without a selector. -/
def sampleCallNoId : Json :=
  .obj (.ofList
    [("jsonrpc", .str "2.0"), ("method", .str "tools/call"),
     ("params", .obj (.ofList
       [("name", .str "decompile"), ("arguments", .obj .nil)]))])

/-- A `tools/call` request (id 1) without a selector. -/
def sampleCallWithId : Json :=
  .obj (.ofList
    [("jsonrpc", .str "2.0"), ("method", .str "tools/call"),
     ("params", .obj (.ofList
       [("name", .str "decompile"), ("arguments", .obj .nil)])),
     ("id", .num 1)])

/-- A `tools/list` notification (no id). -/
def sampleToolsListNoId : Json :=
  .obj (.ofList [("jsonrpc", .str "2.0"), ("method", .str "tools/list")])

/-- A `tools/list` request (id 2). -/
def sampleToolsListWithId : Json :=
  .obj (.ofList
    [("jsonrpc", .str "2.0"), ("method", .str "tools/list"), ("id", .num 2)])

/-- A `tools/call` request (id 1) whose arguments carry another parameter
alongside the selector `binary = "s1"`. -/
def sampleCallBin : Json :=
  .obj (.ofList
    [("jsonrpc", .str "2.0"), ("method", .str "tools/call"),
     ("params", .obj (.ofList
       [("name", .str "decompile"),
        ("arguments", .obj (.ofList
          [("addr", .num 4096), ("binary", .str "s1")]))])),
     ("id", .num 1)])

/-- A `tools/call` notification whose selector `zzz` matches no worker. -/
def sampleCallBinZzzNoId : Json :=
  .obj (.ofList
    [("jsonrpc", .str "2.0"), ("method", .str "tools/call"),
     ("params", .obj (.ofList
       [("name", .str "decompile"),
        ("arguments", .obj (.ofList [("binary", .str "zzz")]))]))])

/-- A `tools/call` request (id 3) whose selector is the empty string. -/
def sampleCallEmptyBin : Json :=
  .obj (.ofList
    [("jsonrpc", .str "2.0"), ("method", .str "tools/call"),
     ("params", .obj (.ofList
       [("name", .str "decompile"),
        ("arguments", .obj (.ofList [("binary", .str "")]))])),
     ("id", .num 3)])

/-- A well-formed `idb_meta` probe reply for `sampleInstanceA`'s binary. -/
def sampleGoodProbe : Except String Json :=
  .ok (.obj (.ofList
    [("result", .obj (.ofList
      [("content", .arr (.cons (.obj (.ofList
        [("text", .obj (.ofList
          [("path", .str "/bin/alpha.exe"), ("module", .str "alpha.exe"),
           ("md5", .str "m1"), ("sha256", .str "s1")]))])) .nil))]))]))

/-- A capability-listing reply advertising no tools. -/
def sampleToolsReplyEmpty : Json :=
  .obj (.ofList [("result", .obj (.ofList [("tools", .arr .nil)]))])

/-- A capability-listing reply that already advertises `list_instances`
twice. -/
def sampleToolsReplyTwoLi : Json :=
  .obj (.ofList
    [("result", .obj (.ofList
      [("tools", .arr (.cons (.obj (.ofList [("name", .str "list_instances")]))
        (.cons (.obj (.ofList [("name", .str "list_instances")])) .nil)))]))])

/-- A capability-listing reply with one ordinary tool. -/
def sampleToolsReplyOne : Json :=
  .obj (.ofList
    [("jsonrpc", .str "2.0"),
     ("result", .obj (.ofList
       [("tools", .arr (.cons (.obj (.ofList
         [("name", .str "decompile"),
          ("inputSchema", .obj (.ofList
            [("type", .str "object"),
             ("properties", .obj (.ofList
               [("addr", .obj (.ofList [("type", .str "number")]))])),
             ("required", .arr .nil)]))])) .nil))])),
     ("id", .num 2)])

/-- The unregister payload a worker whose record is keyed by sha256 would
need if its md5 were accepted as a key (the claimed hash-value tier). -/
def sampleUnregByMd5 : UnregPayload :=
  { binary_id := some "m1", sha256 := some "m1", md5 := some "m1" }

/-- `sampleCallBin` after the selector pop: the value the worker receives,
and also the final value of the inbound request object. -/
def strippedSampleCallBin : Json :=
  .obj (.ofList
    [("jsonrpc", .str "2.0"), ("method", .str "tools/call"),
     ("params", .obj (.ofList
       [("name", .str "decompile"),
        ("arguments", .obj (.ofList [("addr", .num 4096)]))])),
     ("id", .num 1)])

/-! ## Dictionary, string and list lemmas -/

theorem JsonObj.get?_set_self : (d : JsonObj) → (k : String) → (v : Json) →
    (d.set k v).get? k = some v
  | .nil, k, v => by simp [JsonObj.set, JsonObj.get?]
  | .cons k' v' t, k, v => by
    by_cases h : k' = k
    · simp [JsonObj.set, JsonObj.get?, h]
    · simp [JsonObj.set, JsonObj.get?, h, get?_set_self t k v]

theorem JsonObj.get?_set_ne : (d : JsonObj) → (k k' : String) → (v : Json) →
    k' ≠ k → (d.set k' v).get? k = d.get? k
  | .nil, k, k', v, h => by simp [JsonObj.set, JsonObj.get?, h]
  | .cons k₀ v₀ t, k, k', v, h => by
    by_cases h0 : k₀ = k'
    · simp [JsonObj.set, JsonObj.get?, h0, h]
    · simp only [JsonObj.set, if_neg h0, JsonObj.get?]
      by_cases h1 : k₀ = k
      · simp [h1]
      · simp [h1, get?_set_ne t k k' v h]

theorem JsonObj.pop_fst : (d : JsonObj) → (k : String) → (d.pop k).1 = d.get? k
  | .nil, k => by simp [JsonObj.pop, JsonObj.get?]
  | .cons k' v t, k => by
    by_cases h : k' = k
    · simp [JsonObj.pop, JsonObj.get?, h]
    · simp [JsonObj.pop, JsonObj.get?, h, pop_fst t k]

theorem JsonObj.get?_eq_none_of_not_mem : (d : JsonObj) → (k : String) →
    k ∉ d.keys → d.get? k = none
  | .nil, k, _ => by simp [JsonObj.get?]
  | .cons k' v t, k, h => by
    simp only [JsonObj.keys, List.mem_cons, not_or] at h
    simp [JsonObj.get?, h.1, get?_eq_none_of_not_mem t k h.2, Ne.symm h.1]

theorem JsonObj.get?_pop_self : (d : JsonObj) → (k : String) → d.NodupKeys →
    ((d.pop k).2).get? k = none
  | .nil, k, _ => by simp [JsonObj.pop, JsonObj.get?]
  | .cons k' v t, k, h => by
    simp only [JsonObj.NodupKeys, JsonObj.keys, List.nodup_cons] at h
    by_cases h0 : k' = k
    · subst h0
      simpa [JsonObj.pop] using JsonObj.get?_eq_none_of_not_mem t k' h.1
    · simpa [JsonObj.pop, JsonObj.get?, h0] using
        get?_pop_self t k h.2

/-- Lift of `JsonObj.get?_set_self` to `Json`: once the key is known to be
present, the receiver is an object and the update is visible. -/
theorem Json.get?_set_self_of_get {j : Json} {k : String} {v₀ : Json}
    (h : j.get? k = some v₀) (v : Json) : (j.set k v).get? k = some v := by
  cases j <;> simp_all [Json.get?, Json.set, JsonObj.get?_set_self]

theorem Json.get?_set_ne_of_obj {j : Json} {k k' : String} {v₀ : Json}
    (h : j.get? k' = some v₀) (v : Json) (hne : k' ≠ k) :
    (j.set k' v).get? k = j.get? k := by
  cases j <;> simp_all [Json.get?, Json.set, JsonObj.get?_set_ne _ _ _ _ hne]

theorem listInfix_nil (hay : List Char) : listInfix [] hay = true := by
  cases hay <;> simp [listInfix, List.isPrefixOf]

theorem str_contains_empty (s : String) : str_contains s "" = true := by
  simpa [str_contains] using listInfix_nil s.data

theorem tool_named_add_binary (t : Json) :
    tool_named_list_instances (add_binary_to_tool t) =
      tool_named_list_instances t := by
  cases t with
  | obj d =>
    cases hs : (Json.obj d).get? "inputSchema" with
    | none => simp [add_binary_to_tool, hs]
    | some schema =>
      cases hp : schema.get? "properties" with
      | none => simp [add_binary_to_tool, hs, hp]
      | some props =>
        simp only [add_binary_to_tool, hs, hp]
        simp [tool_named_list_instances, Json.set, Json.get?,
          JsonObj.get?_set_ne d "name" "inputSchema" _ (by decide)]
  | null => rfl
  | bool b => rfl
  | num n => rfl
  | str s => rfl
  | arr l => rfl

theorem countP_map_add_binary : (l : JsonList) →
    (l.map add_binary_to_tool).countP tool_named_list_instances =
      l.countP tool_named_list_instances
  | .nil => rfl
  | .cons h t => by
    simp [JsonList.map, JsonList.countP, tool_named_add_binary,
      countP_map_add_binary t]

theorem countP_append (p : Json → Bool) : (l : JsonList) → (x : Json) →
    (l.append x).countP p = l.countP p + (if p x then 1 else 0)
  | .nil, x => by simp [JsonList.append, JsonList.countP]
  | .cons h t, x => by
    simp [JsonList.append, JsonList.countP, countP_append p t x]
    omega

theorem any_iff_countP_pos (p : Json → Bool) : (l : JsonList) →
    (l.any p = true ↔ 0 < l.countP p)
  | .nil => by simp [JsonList.any, JsonList.countP]
  | .cons h t => by
    by_cases hp : p h
    · simp [JsonList.any, JsonList.countP, hp]
    · simp [JsonList.any, JsonList.countP, hp, any_iff_countP_pos p t]

theorem list_instances_tool_named :
    tool_named_list_instances list_instances_tool = true := by decide

/-- The shape of `register_instance`'s reply, separated from the stored
record: failure exactly when both hashes are empty, else success with
sha256 preferred. -/
theorem register_instance_fst (data : RegPayload) (now : Int) (reg : Registry) :
    (register_instance data now reg).1 =
      if data.sha256.getD "" = "" ∧ data.md5.getD "" = "" then
        .failure "No sha256 or md5 provided"
      else
        .success (if data.sha256.getD "" ≠ "" then data.sha256.getD ""
                  else data.md5.getD "") := by
  by_cases h1 : data.sha256.getD "" = "" <;>
    by_cases h2 : data.md5.getD "" = "" <;>
      simp [register_instance, h1, h2]

/-- The per-port register-and-count tail of `discover_step`. -/
theorem discover_register_count (data : RegPayload) (now : Int) (reg : Registry) :
    ((match register_instance data now reg with
      | (.success _, reg') => ((1 : Nat), reg')
      | (.failure _, reg') => ((0 : Nat), reg')) : Nat × Registry).1 =
      if data.sha256.getD "" = "" ∧ data.md5.getD "" = "" then 0 else 1 := by
  rcases h : register_instance data now reg with ⟨rr, reg'⟩
  have hf : rr = if data.sha256.getD "" = "" ∧ data.md5.getD "" = "" then
      RegReply.failure "No sha256 or md5 provided"
    else
      .success (if data.sha256.getD "" ≠ "" then data.sha256.getD ""
                else data.md5.getD "") := by
    rw [← register_instance_fst data now reg, h]
  by_cases hb : data.sha256.getD "" = "" ∧ data.md5.getD "" = ""
  · rw [if_pos hb] at hf
    subst hf
    simp [hb]
  · rw [if_neg hb] at hf
    subst hf
    simp [hb]

theorem discover_step_count (host : String) (port : Int) (now : Int)
    (p : Except String Json) (reg : Registry) :
    (discover_step host port now p reg).1 =
      if probe_registers p then 1 else 0 := by
  cases p with
  | error e => simp [discover_step, probe_registers]
  | ok data =>
    cases hr : data.get? "result" with
    | none => simp [discover_step, probe_registers, hr]
    | some result =>
      cases hc : result.get? "content" with
      | none => simp [discover_step, probe_registers, hr, hc]
      | some c =>
        cases c with
        | arr l =>
          cases l with
          | nil => simp [discover_step, probe_registers, hr, hc]
          | cons c0 rest =>
            cases ht : c0.get? "text" with
            | none => simp [discover_step, probe_registers, hr, hc, ht]
            | some meta =>
              simp only [discover_step, probe_registers, hr, hc, ht]
              rw [discover_register_count]
              by_cases h1 : meta_get_str meta "sha256" = "" <;>
                by_cases h2 : meta_get_str meta "md5" = "" <;>
                  simp [h1, h2]
        | null => simp [discover_step, probe_registers, hr, hc]
        | bool b => simp [discover_step, probe_registers, hr, hc]
        | num n => simp [discover_step, probe_registers, hr, hc]
        | str s => simp [discover_step, probe_registers, hr, hc]
        | obj d => simp [discover_step, probe_registers, hr, hc]

theorem discover_loop_count : (host : String) → (now : Int) →
    (probes : List (Except String Json)) → (port : Int) → (reg : Registry) →
    (discover_loop host now probes port reg).1 =
      probes.countP probe_registers
  | host, now, [], port, reg => by simp [discover_loop]
  | host, now, p :: ps, port, reg => by
    simp only [discover_loop, List.countP_cons]
    rw [discover_step_count,
      discover_loop_count host now ps (port + 1) (discover_step host port now p reg).2]
    by_cases hp : probe_registers p
    · simp [hp]
      omega
    · simp [hp]

/-! ## Reduction of `dispatch_proxy` to `dispatch_route` -/

/-- A request whose method is none of the locally handled ones and not the
capability-listing method reaches the routing tail unchanged. -/
theorem dispatch_proxy_routed (ld : Json → Option Json)
    (fwd : Json → String → Int → Except String Json)
    (probes : List (Except String Json))
    (idaHost : String) (idaPort : Int) (now : Int) (darwin : Bool)
    (reg : Registry) (request : Json) (method : String)
    (hm : request.get? "method" = some (.str method))
    (h1 : method ≠ "initialize")
    (h2 : method.startsWith "notifications/" = false)
    (h3 : ¬(method = "tools/call" ∧ is_list_instances_call request = true))
    (h4 : method ≠ "tools/list") :
    dispatch_proxy ld fwd probes idaHost idaPort now darwin reg request =
      dispatch_route fwd method darwin request idaHost idaPort reg := by
  simp [dispatch_proxy, hm, h1, h2, h3, h4]

/-! ## Claim theorems -/

/-- C5: a registration payload with both identity hashes empty is rejected
with a validation error and the registry is unchanged; any payload with at
least one non-empty hash succeeds and the reply carries the identity key
(sha256 when non-empty, otherwise md5). -/
theorem register_requires_hash (data : RegPayload) (now : Int) (reg : Registry) :
    (data.sha256.getD "" = "" → data.md5.getD "" = "" →
      register_instance data now reg = (.failure "No sha256 or md5 provided", reg)) ∧
    (¬(data.sha256.getD "" = "" ∧ data.md5.getD "" = "") →
      (register_instance data now reg).1 =
        .success (if data.sha256.getD "" ≠ "" then data.sha256.getD ""
                  else data.md5.getD "")) := by
  constructor
  · intro h1 h2
    simp [register_instance, h1, h2]
  · intro h
    rw [register_instance_fst, if_neg h]

theorem register_requires_hash_witness :
    register_instance { md5 := some "", sha256 := some "" } 5 sampleReg1 =
      (.failure "No sha256 or md5 provided", sampleReg1) ∧
    (register_instance { md5 := some "m9", sha256 := some "s9" } 5 sampleReg1).1 =
      .success "s9" := by
  refine ⟨(register_requires_hash _ 5 sampleReg1).1 rfl rfl, ?_⟩
  have h := (register_requires_hash { md5 := some "m9", sha256 := some "s9" }
    5 sampleReg1).2 (by simp)
  simpa using h

/-- C6: `find_instance` resolves in three tiers, evaluated in order — exact
identity key, exact module name, path substring — the first tier that
matches wins even when a later tier would also match a different record,
and `none` is returned when no tier matches. -/
theorem find_instance_three_tiers (reg : Registry) (b : String) :
    (∀ inst, regGet? reg b = some inst → find_instance reg b = some inst) ∧
    (regGet? reg b = none →
      ∀ p, reg.find? (fun q => q.2.module == b) = some p →
        find_instance reg b = some p.2) ∧
    (regGet? reg b = none → reg.find? (fun q => q.2.module == b) = none →
      ∀ p, reg.find? (fun q => str_contains q.2.path b) = some p →
        find_instance reg b = some p.2) ∧
    (regGet? reg b = none → reg.find? (fun q => q.2.module == b) = none →
      reg.find? (fun q => str_contains q.2.path b) = none →
      find_instance reg b = none) := by
  refine ⟨?_, ?_, ?_, ?_⟩
  · intro inst h
    simp only [find_instance, h]
  · intro h0 p h1
    simp only [find_instance, h0, h1]
  · intro h0 h1 p h2
    simp only [find_instance, h0, h1, h2]
  · intro h0 h1 h2
    simp only [find_instance, h0, h1, h2]

theorem find_instance_three_tiers_witness :
    find_instance sampleFindReg "s1" = some sampleInstanceA ∧
    (sampleFindReg.find? (fun q => q.2.module == "s1")) =
      some ("s3", sampleInstanceC) ∧
    (sampleFindReg.find? (fun q => str_contains q.2.path "s1")) =
      some ("s3", sampleInstanceC) := by
  refine ⟨(find_instance_three_tiers sampleFindReg "s1").1 sampleInstanceA
    (by decide), by decide, by decide⟩

/-- C7 counterexample: `sampleInstanceA` is keyed by its sha256 `s1` and has
md5 `m1`.  Unregistering with the key `m1` (supplied in every payload field)
fails in the code, although the claimed resolution — trying the key against
each registered record's hash values — would remove identity `s1`: the code
only ever tries the payload's fields as registry keys, never against the
stored hash values. -/
theorem unregister_hash_tier_cx :
    unregister_instance sampleUnregByMd5 sampleReg1 =
      (.failure "Instance not found", sampleReg1) ∧
    unregister_spec_tiers "m1" sampleReg1 = (some "s1", []) := by
  constructor
  · decide
  · decide

/-- C7 (amended): `unregister_instance` tries the payload's `binary_id`,
then its `sha256`, then its `md5`, each as a key of the registry's identity
map (an empty field is skipped); it deletes the first key found and returns
it, or fails with a not-found error leaving the registry unchanged. -/
theorem unregister_key_resolution (data : UnregPayload) (reg : Registry) :
    (data.binary_id.getD "" ≠ "" → (regGet? reg (data.binary_id.getD "")).isSome →
      unregister_instance data reg =
        (.success (data.binary_id.getD ""),
         regRemove reg (data.binary_id.getD ""))) ∧
    (¬(data.binary_id.getD "" ≠ "" ∧ (regGet? reg (data.binary_id.getD "")).isSome) →
      data.sha256.getD "" ≠ "" → (regGet? reg (data.sha256.getD "")).isSome →
      unregister_instance data reg =
        (.success (data.sha256.getD ""), regRemove reg (data.sha256.getD ""))) ∧
    (¬(data.binary_id.getD "" ≠ "" ∧ (regGet? reg (data.binary_id.getD "")).isSome) →
      ¬(data.sha256.getD "" ≠ "" ∧ (regGet? reg (data.sha256.getD "")).isSome) →
      data.md5.getD "" ≠ "" → (regGet? reg (data.md5.getD "")).isSome →
      unregister_instance data reg =
        (.success (data.md5.getD ""), regRemove reg (data.md5.getD ""))) ∧
    (¬(data.binary_id.getD "" ≠ "" ∧ (regGet? reg (data.binary_id.getD "")).isSome) →
      ¬(data.sha256.getD "" ≠ "" ∧ (regGet? reg (data.sha256.getD "")).isSome) →
      ¬(data.md5.getD "" ≠ "" ∧ (regGet? reg (data.md5.getD "")).isSome) →
      unregister_instance data reg = (.failure "Instance not found", reg)) := by
  refine ⟨?_, ?_, ?_, ?_⟩
  · intro h1 h2
    simp only [unregister_instance, if_pos (And.intro h1 h2)]
  · intro h0 h1 h2
    simp only [unregister_instance, if_neg h0, if_pos (And.intro h1 h2)]
  · intro h0 h1 h2 h3
    simp only [unregister_instance, if_neg h0, if_neg h1,
      if_pos (And.intro h2 h3)]
  · intro h0 h1 h2
    simp only [unregister_instance, if_neg h0, if_neg h1, if_neg h2]

theorem unregister_key_resolution_witness :
    unregister_instance { binary_id := some "s1" } sampleReg1 =
      (.success "s1", []) ∧
    unregister_instance { binary_id := some "zzz" } sampleReg1 =
      (.failure "Instance not found", sampleReg1) := by
  constructor
  · have h := (unregister_key_resolution { binary_id := some "s1" } sampleReg1).1
      (by decide) (by decide)
    simpa using h
  · have h := (unregister_key_resolution { binary_id := some "zzz" } sampleReg1).2.2.2
      (by decide) (by decide) (by decide)
    simpa using h

/-- C9 counterexample: `sampleInstanceA`'s worker is already registered
under `s1` when discovery probes its port again; the pass discovers no new
worker (the registry keeps the same single key), yet the returned count is
1 — the counter counts successful registrations, not newly discovered
workers. -/
theorem discovery_counts_reregistration_cx :
    discover_ida_instances "127.0.0.1" 13338 7 [sampleGoodProbe] sampleReg1 =
      (1, [("s1", { sampleInstanceA with registered_at := 7 })]) ∧
    regGet? sampleReg1 "s1" = some sampleInstanceA := by
  constructor
  · decide
  · decide

/-- C9 (amended): the discovery scanner is a total function of its probe
outcomes — a failing probe (any exception: refused, timed out, malformed)
is silently skipped, leaving the count and the registry unchanged at that
port — and the returned count is the number of probes that led to a
successful registration in this pass, whether or not the worker was
already registered. -/
theorem discovery_skips_failures_counts_registrations :
    (∀ (host : String) (port now : Int) (e : String) (reg : Registry),
      discover_step host port now (.error e) reg = (0, reg)) ∧
    (∀ (host : String) (now : Int) (probes : List (Except String Json))
        (start_port : Int) (reg : Registry),
      (discover_ida_instances host start_port now probes reg).1 =
        probes.countP probe_registers) := by
  constructor
  · intro host port now e reg
    simp [discover_step]
  · intro host now probes start_port reg
    exact discover_loop_count host now probes start_port reg

theorem discovery_skips_failures_counts_registrations_witness :
    discover_step "127.0.0.1" 13338 7 (.error "connection refused") sampleReg1 =
      (0, sampleReg1) ∧
    (discover_ida_instances "127.0.0.1" 13338 7
        [.error "timed out", sampleGoodProbe] []).1 = 1 := by
  constructor
  · exact discovery_skips_failures_counts_registrations.1 "127.0.0.1" 13338 7
      "connection refused" sampleReg1
  · rw [discovery_skips_failures_counts_registrations.2 "127.0.0.1" 7
      [.error "timed out", sampleGoodProbe] 13338 []]
    decide

/-- Unfolding of the augmenter on a reply of the expected shape. -/
theorem augment_eq_of_shape (response result : Json) (tools : JsonList)
    (hr : response.get? "result" = some result)
    (ht : result.get? "tools" = some (.arr tools)) :
    add_binary_param_to_schema response =
      response.set "result" (result.set "tools" (.arr
        (if (tools.map add_binary_to_tool).any tool_named_list_instances
         then tools.map add_binary_to_tool
         else (tools.map add_binary_to_tool).append list_instances_tool))) := by
  simp only [add_binary_param_to_schema, hr, ht]

theorem count_li_of_shape (response result : Json) (tools : JsonList)
    (hr : response.get? "result" = some result)
    (ht : result.get? "tools" = some (.arr tools)) :
    count_list_instances response = tools.countP tool_named_list_instances := by
  simp only [count_list_instances, hr, Option.some_bind, ht]

/-- C4 counterexample: augmenting a reply with no advertised tools appends
the synthetic `list_instances` descriptor, whose schema declares an empty
property set; a second augmentation pass then inserts the `binary`
parameter into that very descriptor, so augmenting twice differs from
augmenting once.  And a reply already advertising `list_instances` twice
keeps both entries, so the augmented reply does not always hold exactly one
enumeration entry. -/
theorem augment_not_idempotent_cx :
    add_binary_param_to_schema (add_binary_param_to_schema sampleToolsReplyEmpty) ≠
      add_binary_param_to_schema sampleToolsReplyEmpty ∧
    count_list_instances (add_binary_param_to_schema sampleToolsReplyTwoLi) = 2 := by
  constructor
  · decide
  · decide

/-- C4 (amended): the augmenter inserts the optional string `binary`
property into every descriptor whose input schema declares a (dict)
property set; when the incoming reply advertises at most one
`list_instances` entry, the augmented reply holds exactly one; and while a
second augmentation pass never duplicates the enumeration entry (its count
is preserved), augmentation is not idempotent — the second pass adds the
selector property to the synthetic descriptor's empty schema. -/
theorem augment_selector_and_single_enumeration
    (response result : Json) (tools : JsonList)
    (hr : response.get? "result" = some result)
    (ht : result.get? "tools" = some (.arr tools)) :
    (∀ (tool schema : Json) (pd : JsonObj),
      tool.get? "inputSchema" = some schema →
      schema.get? "properties" = some (.obj pd) →
      (add_binary_to_tool tool).get? "inputSchema" =
          some (schema.set "properties" (.obj (pd.set "binary" binary_param))) ∧
      (schema.set "properties" (.obj (pd.set "binary" binary_param))).get?
          "properties" = some (.obj (pd.set "binary" binary_param)) ∧
      (pd.set "binary" binary_param).get? "binary" = some binary_param) ∧
    (tools.countP tool_named_list_instances ≤ 1 →
      count_list_instances (add_binary_param_to_schema response) = 1) ∧
    count_list_instances (add_binary_param_to_schema
        (add_binary_param_to_schema response)) =
      count_list_instances (add_binary_param_to_schema response) := by
  have hmapcnt := countP_map_add_binary tools
  set toolsD :=
    (if (tools.map add_binary_to_tool).any tool_named_list_instances
     then tools.map add_binary_to_tool
     else (tools.map add_binary_to_tool).append list_instances_tool) with htd
  have he := augment_eq_of_shape response result tools hr ht
  have hr' : (add_binary_param_to_schema response).get? "result" =
      some (result.set "tools" (.arr toolsD)) := by
    rw [he]
    exact Json.get?_set_self_of_get hr _
  have ht' : (result.set "tools" (.arr toolsD)).get? "tools" =
      some (.arr toolsD) := Json.get?_set_self_of_get ht _
  have hc1 : count_list_instances (add_binary_param_to_schema response) =
      toolsD.countP tool_named_list_instances :=
    count_li_of_shape _ _ _ hr' ht'
  have hpos : 0 < toolsD.countP tool_named_list_instances := by
    rw [htd]
    by_cases hany : (tools.map add_binary_to_tool).any tool_named_list_instances
    · rw [if_pos hany]
      exact (any_iff_countP_pos _ _).mp hany
    · rw [if_neg hany, countP_append, list_instances_tool_named]
      simp
  refine ⟨?_, ?_, ?_⟩
  · intro tool schema pd hts hsp
    refine ⟨?_, Json.get?_set_self_of_get hsp _, JsonObj.get?_set_self pd _ _⟩
    cases tool with
    | obj d =>
      simp only [add_binary_to_tool, hts, hsp, Json.set]
      exact JsonObj.get?_set_self d _ _
    | null => simp [Json.get?] at hts
    | bool b => simp [Json.get?] at hts
    | num n => simp [Json.get?] at hts
    | str s => simp [Json.get?] at hts
    | arr l => simp [Json.get?] at hts
  · intro hle
    rw [hc1, htd]
    by_cases hany : (tools.map add_binary_to_tool).any tool_named_list_instances
    · rw [if_pos hany]
      have := (any_iff_countP_pos _ _).mp hany
      omega
    · rw [if_neg hany, countP_append, list_instances_tool_named]
      have h0 : (tools.map add_binary_to_tool).countP tool_named_list_instances = 0 := by
        by_contra hne
        exact hany ((any_iff_countP_pos _ _).mpr (Nat.pos_of_ne_zero hne))
      simp [h0]
  · have he2 := augment_eq_of_shape (add_binary_param_to_schema response)
      (result.set "tools" (.arr toolsD)) toolsD hr' ht'
    have hany2 : (toolsD.map add_binary_to_tool).any tool_named_list_instances = true := by
      refine (any_iff_countP_pos _ _).mpr ?_
      rw [countP_map_add_binary]
      exact hpos
    rw [he2, if_pos hany2]
    have hr2 : ((add_binary_param_to_schema response).set "result"
        ((result.set "tools" (.arr toolsD)).set "tools"
          (.arr (toolsD.map add_binary_to_tool)))).get? "result" =
        some ((result.set "tools" (.arr toolsD)).set "tools"
          (.arr (toolsD.map add_binary_to_tool))) :=
      Json.get?_set_self_of_get hr' _
    have ht2 : ((result.set "tools" (.arr toolsD)).set "tools"
        (.arr (toolsD.map add_binary_to_tool))).get? "tools" =
        some (.arr (toolsD.map add_binary_to_tool)) :=
      Json.get?_set_self_of_get ht' _
    rw [count_li_of_shape _ _ _ hr2 ht2, countP_map_add_binary, hc1]

theorem augment_selector_and_single_enumeration_witness :
    count_list_instances (add_binary_param_to_schema sampleToolsReplyOne) = 1 ∧
    (add_binary_to_tool (.obj (.ofList
      [("name", .str "decompile"),
       ("inputSchema", .obj (.ofList
         [("type", .str "object"),
          ("properties", .obj (.ofList
            [("addr", .obj (.ofList [("type", .str "number")]))])),
          ("required", .arr .nil)]))]))).get? "inputSchema" =
      some (.obj (.ofList
        [("type", .str "object"),
         ("properties", .obj (.ofList
           [("addr", .obj (.ofList [("type", .str "number")])),
            ("binary", binary_param)])),
         ("required", .arr .nil)])) := by
  constructor
  · exact (augment_selector_and_single_enumeration sampleToolsReplyOne
      (.obj (.ofList
        [("tools", .arr (.cons (.obj (.ofList
          [("name", .str "decompile"),
           ("inputSchema", .obj (.ofList
             [("type", .str "object"),
              ("properties", .obj (.ofList
                [("addr", .obj (.ofList [("type", .str "number")]))])),
              ("required", .arr .nil)]))])) .nil))]))
      (.cons (.obj (.ofList
        [("name", .str "decompile"),
         ("inputSchema", .obj (.ofList
           [("type", .str "object"),
            ("properties", .obj (.ofList
              [("addr", .obj (.ofList [("type", .str "number")]))])),
            ("required", .arr .nil)]))])) .nil)
      (by decide) (by decide)).2.1 (by decide)
  · have h := (augment_selector_and_single_enumeration sampleToolsReplyOne
      (.obj (.ofList
        [("tools", .arr (.cons (.obj (.ofList
          [("name", .str "decompile"),
           ("inputSchema", .obj (.ofList
             [("type", .str "object"),
              ("properties", .obj (.ofList
                [("addr", .obj (.ofList [("type", .str "number")]))])),
              ("required", .arr .nil)]))])) .nil))]))
      (.cons (.obj (.ofList
        [("name", .str "decompile"),
         ("inputSchema", .obj (.ofList
           [("type", .str "object"),
            ("properties", .obj (.ofList
              [("addr", .obj (.ofList [("type", .str "number")]))])),
            ("required", .arr .nil)]))])) .nil)
      (by decide) (by decide)).1
      (.obj (.ofList
        [("name", .str "decompile"),
         ("inputSchema", .obj (.ofList
           [("type", .str "object"),
            ("properties", .obj (.ofList
              [("addr", .obj (.ofList [("type", .str "number")]))])),
            ("required", .arr .nil)]))]))
      (.obj (.ofList
        [("type", .str "object"),
         ("properties", .obj (.ofList
           [("addr", .obj (.ofList [("type", .str "number")]))])),
         ("required", .arr .nil)]))
      (.ofList [("addr", .obj (.ofList [("type", .str "number")]))])
      (by decide) (by decide)
    exact h.1

/-- C1 counterexample: with two workers registered, an ordinary call that
carries no selector and no call identifier (a notification) yields no reply
value at all — the gateway does not return the demanded-selector error for
it (step 9 suppresses every error for notifications), refuting the claim's
universal quantification over all inbound requests. -/
theorem dispatch_no_selector_notification_cx :
    dispatch_proxy (fun _ => none) (fun _ _ _ => .error "connection refused") []
        "127.0.0.1" 13337 0 false sampleReg2 sampleCallNoId =
      .ok (none, sampleReg2, sampleCallNoId) := by
  rfl

/-- C1 (amended): for every non-local, non-capability-listing request with
no selector value, when more than one worker is registered the gateway
forwards nothing to any worker (the outcome is the same under every
transport oracle), and — when the request carries a call identifier —
returns the protocol-level application error demanding the selector;
a notification gets no reply instead. -/
theorem dispatch_ambiguous_without_selector
    (ld : Json → Option Json)
    (fwd fwd' : Json → String → Int → Except String Json)
    (probes : List (Except String Json))
    (idaHost : String) (idaPort : Int) (now : Int) (darwin : Bool)
    (reg : Registry) (request : Json) (method : String)
    (hm : request.get? "method" = some (.str method))
    (h1 : method ≠ "initialize")
    (h2 : method.startsWith "notifications/" = false)
    (h3 : ¬(method = "tools/call" ∧ is_list_instances_call request = true))
    (h4 : method ≠ "tools/list")
    (hb : (extract_binary method request).1 = none)
    (hc : 1 < get_instance_count reg) :
    (∀ i, reqId? request = some i →
      dispatch_proxy ld fwd probes idaHost idaPort now darwin reg request =
        .ok (some (error_response i
               "Multiple IDA instances are connected. Please specify the 'binary' parameter to select which one to use. Use list_instances to see available binaries."),
             reg, (extract_binary method request).2)) ∧
    dispatch_proxy ld fwd probes idaHost idaPort now darwin reg request =
      dispatch_proxy ld fwd' probes idaHost idaPort now darwin reg request := by
  have hroute : ∀ f : Json → String → Int → Except String Json,
      dispatch_proxy ld f probes idaHost idaPort now darwin reg request =
        .ok (route_without_binary f method darwin (reqId? request)
               (extract_binary method request).2 idaHost idaPort reg,
             reg, (extract_binary method request).2) := by
    intro f
    rw [dispatch_proxy_routed ld f probes idaHost idaPort now darwin reg
      request method hm h1 h2 h3 h4]
    simp only [dispatch_route, hb]
  have hne1 : get_instance_count reg ≠ 1 := by omega
  have hamb : ∀ f : Json → String → Int → Except String Json,
      route_without_binary f method darwin (reqId? request)
        (extract_binary method request).2 idaHost idaPort reg =
      match reqId? request with
      | none => none
      | some i => some (error_response i
          "Multiple IDA instances are connected. Please specify the 'binary' parameter to select which one to use. Use list_instances to see available binaries.") := by
    intro f
    simp only [route_without_binary, if_neg hne1, if_pos hc]
  constructor
  · intro i hi
    rw [hroute fwd, hamb fwd, hi]
  · rw [hroute fwd, hroute fwd', hamb fwd, hamb fwd']

theorem dispatch_ambiguous_without_selector_witness :
    dispatch_proxy (fun _ => none) (fun _ _ _ => .error "connection refused") []
        "127.0.0.1" 13337 0 false sampleReg2 sampleCallWithId =
      .ok (some (error_response (.num 1)
             "Multiple IDA instances are connected. Please specify the 'binary' parameter to select which one to use. Use list_instances to see available binaries."),
           sampleReg2, sampleCallWithId) := by
  have h := (dispatch_ambiguous_without_selector (fun _ => none)
    (fun _ _ _ => .error "connection refused") (fun _ _ _ => .error "x") []
    "127.0.0.1" 13337 0 false sampleReg2 sampleCallWithId "tools/call"
    (by decide) (by decide) (by decide) (by decide) (by decide) (by decide)
    (by decide)).1 (.num 1) (by decide)
  exact h

/-- C2 counterexample: a capability-listing request with no call identifier
whose forward fails produces an error object (with a null id) instead of no
reply — the `tools/list` transport-failure path lacks the notification
check the other failure paths have. -/
theorem tools_list_notification_error_cx :
    dispatch_proxy (fun _ => none) (fun _ _ _ => .error "connection refused") []
        "127.0.0.1" 13337 0 false sampleReg1 sampleToolsListNoId =
      .ok (some (error_response .null "Failed to get tools: connection refused"),
           sampleReg1, sampleToolsListNoId) := by
  rfl

/-- C2 (amended): for a request carrying no call identifier, the
selector-not-found path, the ambiguous-selection path, and a transport
failure on any forwarded (non-capability-listing) method produce no reply
value; but a transport failure while forwarding the capability-listing
method constructs an error object with a null identifier even for a
notification. -/
theorem notification_failure_paths_silent :
    (∀ (ld : Json → Option Json)
        (fwd : Json → String → Int → Except String Json)
        (probes : List (Except String Json))
        (idaHost : String) (idaPort : Int) (now : Int) (darwin : Bool)
        (reg : Registry) (request : Json) (method s : String),
      request.get? "method" = some (.str method) →
      method ≠ "initialize" →
      method.startsWith "notifications/" = false →
      ¬(method = "tools/call" ∧ is_list_instances_call request = true) →
      method ≠ "tools/list" →
      (extract_binary method request).1 = some (.str s) →
      s ≠ "" →
      find_instance reg s = none →
      reqId? request = none →
      dispatch_proxy ld fwd probes idaHost idaPort now darwin reg request =
        .ok (none, reg, (extract_binary method request).2)) ∧
    (∀ (ld : Json → Option Json)
        (fwd : Json → String → Int → Except String Json)
        (probes : List (Except String Json))
        (idaHost : String) (idaPort : Int) (now : Int) (darwin : Bool)
        (reg : Registry) (request : Json) (method : String),
      request.get? "method" = some (.str method) →
      method ≠ "initialize" →
      method.startsWith "notifications/" = false →
      ¬(method = "tools/call" ∧ is_list_instances_call request = true) →
      method ≠ "tools/list" →
      (extract_binary method request).1 = none →
      1 < get_instance_count reg →
      reqId? request = none →
      dispatch_proxy ld fwd probes idaHost idaPort now darwin reg request =
        .ok (none, reg, (extract_binary method request).2)) ∧
    (∀ (fwd : Json → String → Int → Except String Json)
        (method : String) (darwin : Bool) (request' : Json)
        (host : String) (port : Int) (e : String),
      fwd request' host port = .error e →
      forward_leg fwd method darwin none request' host port = none) ∧
    (∀ (ld : Json → Option Json)
        (fwd : Json → String → Int → Except String Json)
        (probes : List (Except String Json))
        (idaHost : String) (idaPort : Int) (now : Int) (darwin : Bool)
        (k₀ : String) (first : Instance) (rest : List (String × Instance))
        (request : Json) (e : String),
      request.get? "method" = some (.str "tools/list") →
      fwd request first.host first.port = .error e →
      reqId? request = none →
      dispatch_proxy ld fwd probes idaHost idaPort now darwin
          ((k₀, first) :: rest) request =
        .ok (some (error_response .null ("Failed to get tools: " ++ e)),
             (k₀, first) :: rest, request)) := by
  refine ⟨?_, ?_, ?_, ?_⟩
  · intro ld fwd probes idaHost idaPort now darwin reg request method s
      hm h1 h2 h3 h4 hbs hs hf hid
    rw [dispatch_proxy_routed ld fwd probes idaHost idaPort now darwin reg
      request method hm h1 h2 h3 h4]
    have hst : Json.truthy (.str s) = true := by simp [Json.truthy, hs]
    simp only [dispatch_route, hbs, hst, if_pos, hf, hid]
  · intro ld fwd probes idaHost idaPort now darwin reg request method
      hm h1 h2 h3 h4 hb hc hid
    rw [dispatch_proxy_routed ld fwd probes idaHost idaPort now darwin reg
      request method hm h1 h2 h3 h4]
    have hne1 : get_instance_count reg ≠ 1 := by omega
    simp only [dispatch_route, hb, route_without_binary, if_neg hne1,
      if_pos hc, hid]
  · intro fwd method darwin request' host port e hfwd
    simp [forward_leg, hfwd]
  · intro ld fwd probes idaHost idaPort now darwin k₀ first rest request e
      hm hfwd hid
    simp only [dispatch_proxy, hm]
    norm_num [get_instance_count, hfwd, hid]
    rw [if_neg (by decide : ¬(("tools/list" : String) = "initialize")),
      if_neg (by decide : ¬("tools/list".startsWith "notifications/" = true)),
      if_neg (fun h => absurd h.1 (by decide) :
        ¬(("tools/list" : String) = "tools/call" ∧
          is_list_instances_call request = true))]

theorem notification_failure_paths_silent_witness :
    dispatch_proxy (fun _ => none) (fun _ _ _ => .error "refused") []
        "127.0.0.1" 13337 0 false sampleReg1 sampleCallBinZzzNoId =
      .ok (none, sampleReg1,
           (extract_binary "tools/call" sampleCallBinZzzNoId).2) ∧
    dispatch_proxy (fun _ => none) (fun _ _ _ => .error "refused") []
        "127.0.0.1" 13337 0 false sampleReg2 sampleCallNoId =
      .ok (none, sampleReg2, (extract_binary "tools/call" sampleCallNoId).2) ∧
    forward_leg (fun _ _ _ => .error "refused") "tools/call" false none
        sampleCallNoId "127.0.0.1" 13338 = none ∧
    dispatch_proxy (fun _ => none) (fun _ _ _ => .error "refused") []
        "127.0.0.1" 13337 0 false sampleReg1 sampleToolsListNoId =
      .ok (some (error_response .null "Failed to get tools: refused"),
           sampleReg1, sampleToolsListNoId) := by
  refine ⟨?_, ?_, ?_, ?_⟩
  · exact notification_failure_paths_silent.1 (fun _ => none)
      (fun _ _ _ => .error "refused") [] "127.0.0.1" 13337 0 false sampleReg1
      sampleCallBinZzzNoId "tools/call" "zzz" (by decide) (by decide)
      (by decide) (by decide) (by decide) (by decide) (by decide) (by decide)
      (by decide)
  · exact notification_failure_paths_silent.2.1 (fun _ => none)
      (fun _ _ _ => .error "refused") [] "127.0.0.1" 13337 0 false sampleReg2
      sampleCallNoId "tools/call" (by decide) (by decide) (by decide)
      (by decide) (by decide) (by decide) (by decide) (by decide)
  · exact notification_failure_paths_silent.2.2.1 (fun _ _ _ => .error "refused")
      "tools/call" false sampleCallNoId "127.0.0.1" 13338 "refused" rfl
  · exact notification_failure_paths_silent.2.2.2 (fun _ => none)
      (fun _ _ _ => .error "refused") [] "127.0.0.1" 13337 0 false
      "s1" sampleInstanceA [] sampleToolsListNoId "refused" (by decide) rfl
      (by decide)

/-- C3: when the registry is empty and the discovery pass registers
nothing, a capability-listing request is answered directly with the
synthesized list — it holds exactly one operation, the enumeration
operation (annotated as having no workers connected) — nothing is forwarded
to any worker (the outcome is identical under every transport oracle), and
the registry stays empty. -/
theorem tools_list_empty_registry_synthesizes
    (ld : Json → Option Json)
    (fwd fwd' : Json → String → Int → Except String Json)
    (probes : List (Except String Json))
    (idaHost : String) (idaPort : Int) (now : Int) (darwin : Bool)
    (request : Json)
    (hm : request.get? "method" = some (.str "tools/list"))
    (hdisc : (discover_ida_instances idaHost 13338 now probes []).2 = []) :
    dispatch_proxy ld fwd probes idaHost idaPort now darwin [] request =
      .ok (some (tools_list_empty_response ((reqId? request).getD .null)),
           [], request) ∧
    tools_count (tools_list_empty_response ((reqId? request).getD .null)) = 1 ∧
    count_list_instances
      (tools_list_empty_response ((reqId? request).getD .null)) = 1 ∧
    dispatch_proxy ld fwd probes idaHost idaPort now darwin [] request =
      dispatch_proxy ld fwd' probes idaHost idaPort now darwin [] request := by
  have hmain : ∀ f : Json → String → Int → Except String Json,
      dispatch_proxy ld f probes idaHost idaPort now darwin [] request =
        .ok (some (tools_list_empty_response ((reqId? request).getD .null)),
             [], request) := by
    intro f
    simp only [dispatch_proxy, hm]
    rw [if_neg (by decide : ¬(("tools/list" : String) = "initialize")),
      if_neg (by decide : ¬("tools/list".startsWith "notifications/" = true)),
      if_neg (fun h => absurd h.1 (by decide) :
        ¬(("tools/list" : String) = "tools/call" ∧
          is_list_instances_call request = true)), if_pos trivial]
    simp only [get_instance_count, List.length_nil, if_pos rfl, hdisc]
    simp
  refine ⟨hmain fwd, by rfl, by rfl, (hmain fwd).trans (hmain fwd').symm⟩

theorem tools_list_empty_registry_synthesizes_witness :
    dispatch_proxy (fun _ => none) (fun _ _ _ => .error "refused") []
        "127.0.0.1" 13337 0 false [] sampleToolsListWithId =
      .ok (some (tools_list_empty_response (.num 2)), [],
           sampleToolsListWithId) := by
  have h := (tools_list_empty_registry_synthesizes (fun _ => none)
    (fun _ _ _ => .error "refused") (fun _ _ _ => .error "x") []
    "127.0.0.1" 13337 0 false sampleToolsListWithId (by decide) rfl).1
  exact h

/-- C8 counterexample: the selector pop mutates the inbound request object
in place — after dispatching `sampleCallBin` (selector `binary = "s1"`
inside the call arguments) the request's final value has lost the selector,
so the original inbound value is not left untouched; the worker receives
that same stripped value (the forward oracle here echoes its input). -/
theorem selector_strip_mutates_request_cx :
    dispatch_proxy (fun _ => none) (fun r _ _ => .ok r) []
        "127.0.0.1" 13337 0 false sampleReg2 sampleCallBin =
      .ok (some strippedSampleCallBin, sampleReg2, strippedSampleCallBin) ∧
    strippedSampleCallBin ≠ sampleCallBin := by
  constructor
  · rfl
  · decide

/-- C8 (amended): for a call carrying a selector that resolves to a worker,
the gateway forwards the selector-stripped request value — the outbound
request has no `binary` member, so workers never see the selector — but the
stripping is an in-place mutation: the inbound request's final value is
that same stripped value, different from the original inbound value, not an
untouched original alongside a fresh outbound copy. -/
theorem forwarded_request_omits_selector
    (ld : Json → Option Json)
    (fwd : Json → String → Int → Except String Json)
    (probes : List (Except String Json))
    (idaHost : String) (idaPort : Int) (now : Int) (darwin : Bool)
    (reg : Registry) (request : Json) (p a : JsonObj) (s : String)
    (inst : Instance)
    (hm : request.get? "method" = some (.str "tools/call"))
    (hname : is_list_instances_call request = false)
    (hp : request.get? "params" = some (.obj p))
    (ha : p.get? "arguments" = some (.obj a))
    (hnd : a.NodupKeys)
    (hbin : a.get? "binary" = some (.str s))
    (hs : s ≠ "")
    (hfind : find_instance reg s = some inst) :
    dispatch_proxy ld fwd probes idaHost idaPort now darwin reg request =
      .ok (forward_leg fwd "tools/call" darwin (reqId? request)
             (request.set "params"
               (.obj (p.set "arguments" (.obj (a.pop "binary").2))))
             inst.host inst.port,
           reg,
           request.set "params"
             (.obj (p.set "arguments" (.obj (a.pop "binary").2)))) ∧
    (((request.set "params"
        (.obj (p.set "arguments" (.obj (a.pop "binary").2)))).get?
          "params").bind (fun q => q.get? "arguments")).bind
        (fun q => q.get? "binary") = none ∧
    request.set "params" (.obj (p.set "arguments" (.obj (a.pop "binary").2)))
      ≠ request := by
  have hargs : (p.get? "arguments").isSome := by rw [ha]; rfl
  have hextract : extract_binary "tools/call" request =
      ((a.pop "binary").1,
       request.set "params" (.obj (p.set "arguments" (.obj (a.pop "binary").2)))) := by
    simp [extract_binary, hp, ha]
  have heb1 : (extract_binary "tools/call" request).1 = some (.str s) := by
    rw [hextract]
    simp only [JsonObj.pop_fst, hbin]
  have heb2 : (extract_binary "tools/call" request).2 =
      request.set "params" (.obj (p.set "arguments" (.obj (a.pop "binary").2))) := by
    rw [hextract]
  have hstripped : (((request.set "params"
      (.obj (p.set "arguments" (.obj (a.pop "binary").2)))).get?
        "params").bind (fun q => q.get? "arguments")).bind
      (fun q => q.get? "binary") = none := by
    rw [Json.get?_set_self_of_get hp]
    simp only [Option.some_bind, Json.get?, JsonObj.get?_set_self,
      JsonObj.get?_pop_self a "binary" hnd]
  refine ⟨?_, hstripped, ?_⟩
  · rw [dispatch_proxy_routed ld fwd probes idaHost idaPort now darwin reg
      request "tools/call" hm (by decide) (by decide)
      (fun h => by simp [hname] at h) (by decide)]
    have hst : Json.truthy (.str s) = true := by simp [Json.truthy, hs]
    simp only [dispatch_route, heb1, heb2, hst, if_pos, hfind]
  · intro heq
    have hv := hstripped
    rw [heq, hp] at hv
    simp only [Option.some_bind, Json.get?, ha, hbin] at hv
    exact Option.noConfusion hv

theorem forwarded_request_omits_selector_witness :
    dispatch_proxy (fun _ => none) (fun r _ _ => .ok r) [] "127.0.0.1" 13337 0
        false sampleReg2 sampleCallBin =
      .ok (some strippedSampleCallBin, sampleReg2, strippedSampleCallBin) ∧
    ((strippedSampleCallBin.get? "params").bind
      (fun q => q.get? "arguments")).bind (fun q => q.get? "binary") = none := by
  have h := forwarded_request_omits_selector (fun _ => none) (fun r _ _ => .ok r)
    [] "127.0.0.1" 13337 0 false sampleReg2 sampleCallBin
    (.ofList [("name", .str "decompile"),
      ("arguments", .obj (.ofList [("addr", .num 4096), ("binary", .str "s1")]))])
    (.ofList [("addr", .num 4096), ("binary", .str "s1")])
    "s1" sampleInstanceA (by decide) (by decide) (by decide) (by decide)
    (by unfold JsonObj.NodupKeys; decide) (by decide) (by decide) (by decide)
  exact ⟨h.1, h.2.1⟩

/-- C10: an empty-string selector is falsy in Python, so the gateway treats
it exactly as an absent selector — the request takes the selector-absent
routing arm (auto-route / ambiguous error / default address) on the
already-stripped request — and the empty string never reaches
`find_instance`, whose path-substring tier would otherwise match every
record of a non-empty registry. -/
theorem empty_selector_treated_as_absent
    (ld : Json → Option Json)
    (fwd : Json → String → Int → Except String Json)
    (probes : List (Except String Json))
    (idaHost : String) (idaPort : Int) (now : Int) (darwin : Bool)
    (reg : Registry) (request : Json) (method : String)
    (hm : request.get? "method" = some (.str method))
    (h1 : method ≠ "initialize")
    (h2 : method.startsWith "notifications/" = false)
    (h3 : ¬(method = "tools/call" ∧ is_list_instances_call request = true))
    (h4 : method ≠ "tools/list")
    (hb : (extract_binary method request).1 = some (.str "")) :
    dispatch_proxy ld fwd probes idaHost idaPort now darwin reg request =
      .ok (route_without_binary fwd method darwin (reqId? request)
             (extract_binary method request).2 idaHost idaPort reg,
           reg, (extract_binary method request).2) ∧
    (∀ reg' : Registry, reg' ≠ [] → (find_instance reg' "").isSome) := by
  constructor
  · rw [dispatch_proxy_routed ld fwd probes idaHost idaPort now darwin reg
      request method hm h1 h2 h3 h4]
    have hft : Json.truthy (.str "") = false := by decide
    simp only [dispatch_route, hb, hft]
    simp
  · intro reg' hne
    cases reg' with
    | nil => exact absurd rfl hne
    | cons hd tl =>
      obtain ⟨k, v⟩ := hd
      cases hg : regGet? ((k, v) :: tl) "" with
      | some inst => simp [find_instance, hg]
      | none =>
        cases hmod : List.find? (fun p => p.2.module == ("" : String))
            ((k, v) :: tl) with
        | some pr => simp [find_instance, hg, hmod]
        | none =>
          have hpath : List.find? (fun p => str_contains p.2.path "")
              ((k, v) :: tl) = some (k, v) :=
            List.find?_cons_of_pos _ (str_contains_empty v.path)
          simp [find_instance, hg, hmod, hpath]

theorem empty_selector_treated_as_absent_witness :
    dispatch_proxy (fun _ => none) (fun _ _ _ => .error "refused") []
        "127.0.0.1" 13337 0 false sampleReg2 sampleCallEmptyBin =
      .ok (route_without_binary (fun _ _ _ => .error "refused") "tools/call"
             false (reqId? sampleCallEmptyBin)
             (extract_binary "tools/call" sampleCallEmptyBin).2
             "127.0.0.1" 13337 sampleReg2,
           sampleReg2, (extract_binary "tools/call" sampleCallEmptyBin).2) ∧
    (find_instance sampleReg2 "").isSome := by
  have h := empty_selector_treated_as_absent (fun _ => none)
    (fun _ _ _ => .error "refused") [] "127.0.0.1" 13337 0 false sampleReg2
    sampleCallEmptyBin "tools/call" (by decide) (by decide) (by decide)
    (by decide) (by decide) (by decide)
  exact ⟨h.1, h.2 sampleReg2 (by decide)⟩
